import Mathlib

/-!
Verification of the aws-cloudfront module of nidratech/next-deploy
(src/packages/aws-cloudfront/src/lib/index.ts).

The module is a thin lifecycle layer over the CloudFront and S3 clients.
We embed it shallowly: every provider call is an emitted `ApiEvent`, the
responses of the provider are supplied up front in an `Env` record, and
each operation is a pure function returning the list of issued events
together with an `Except JsError` result (mirroring async throw/return).

Four helper modules imported by index.ts (`parseInputOrigins`,
`getDefaultCacheBehavior`, `createOriginAccessIdentity`,
`grantCloudFrontBucketAccess`) are not part of the given source tree;
`createOriginAccessIdentity` and `grantCloudFrontBucketAccess` are pure
provider calls and are represented as events with environment-supplied
outcomes, while `parseInputOrigins` and `getDefaultCacheBehavior` are
modelled from the specification (their definitions say so in their doc
comments).
-/

namespace NextDeploy

/-- S3OriginConfig record of a parsed origin: carries the
origin-access-identity principal reference (empty string when none). -/
structure S3OriginConfigRec where
  OriginAccessIdentity : String
deriving DecidableEq, Repr

/-- A custom header attached to an origin. -/
structure CustomHeader where
  HeaderName : String
  HeaderValue : String
deriving DecidableEq, Repr

/-- One entry of the Origins collection of the provider (CloudFront.Origin).
`S3OriginConfig = some _` tags the origin as storage-bucket-backed;
`none` means custom-HTTP-backed. -/
structure ParsedOrigin where
  Id : String
  DomainName : String
  OriginPath : String
  CustomHeaders : List CustomHeader
  S3OriginConfig : Option S3OriginConfigRec
deriving DecidableEq, Repr

/-- The counted, ordered Origins collection (CloudFront.Origins). -/
structure OriginsRec where
  Quantity : Nat
  Items : List ParsedOrigin
deriving DecidableEq, Repr

/-- One path-pattern routing rule of the CacheBehaviors collection. -/
structure CacheBehaviorRec where
  PathPattern : String
  TargetOriginId : String
deriving DecidableEq, Repr

/-- The counted, ordered CacheBehaviors collection. -/
structure CacheBehaviorsRec where
  Quantity : Nat
  Items : List CacheBehaviorRec
deriving DecidableEq, Repr

/-- Forwarded values inside the default cache behavior. -/
structure ForwardedValuesRec where
  QueryString : Bool
  Cookies : String
  Headers : List String
deriving DecidableEq, Repr

/-- The single mandatory default cache behavior record. -/
structure DefaultCacheBehaviorRec where
  TargetOriginId : String
  AllowedMethods : List String
  ForwardedValues : ForwardedValuesRec
  MinTTL : Nat
  DefaultTTL : Nat
  MaxTTL : Nat
  ViewerProtocolPolicy : String
deriving DecidableEq, Repr

/-- The counted Aliases collection. -/
structure AliasesRec where
  Quantity : Nat
  Items : List String
deriving DecidableEq, Repr

/-- The full DistributionConfig record as sent to or fetched from the
provider. Fields that a given request literal of index.ts may simply not
mention (CacheBehaviors, Aliases, PriceClass, HttpVersion) are `Option`s:
`none` models an absent key of the JavaScript object. -/
structure DistributionConfigRec where
  CallerReference : String
  Comment : String
  Enabled : Bool
  Origins : OriginsRec
  DefaultCacheBehavior : DefaultCacheBehaviorRec
  CacheBehaviors : Option CacheBehaviorsRec
  Aliases : Option AliasesRec
  PriceClass : Option String
  HttpVersion : Option String
deriving DecidableEq, Repr

/-- Recognized options of the `defaults` input configuration object. -/
structure CacheDefaults where
  allowedHttpMethods : Option (List String)
  forwardCookies : Option String
  forwardQueryString : Option Bool
  forwardHeaders : Option (List String)
  minTTL : Option Nat
  maxTTL : Option Nat
  defaultTTL : Option Nat
  viewerProtocolPolicy : Option String
deriving DecidableEq, Repr

/-- A user-supplied origin descriptor: either a bare string or a
structured record `\x7burl, path?, headers?, private?\x7d`. The `priv`
argument models the `private` field (a Lean keyword). -/
inductive InputOrigin
  | str (s : String)
  | obj (url : String) (path : Option String) (headers : List CustomHeader)
      (priv : Option Bool)
deriving DecidableEq, Repr

/-- The `CloudFrontInputs` record of index.ts. -/
structure CloudFrontInputs where
  origins : List InputOrigin
  defaults : Option CacheDefaults
  comment : String
  enabled : Bool
deriving DecidableEq, Repr

/-- JavaScript truthiness of an origin value: an empty string is falsy,
every other string and every object is truthy. -/
def originTruthy : InputOrigin → Bool
  | .str s => !(s == "")
  | .obj _ _ _ _ => true

/-- The `private` field of an origin as JavaScript property access sees
it: `undefined` (`none`) on a bare string. -/
def originPrivateFlag : InputOrigin → Option Bool
  | .str _ => none
  | .obj _ _ _ p => p

/-- Line 11 of index.ts: some origin is truthy and has `private === true`. -/
def servePrivateContentEnabled (inputs : CloudFrontInputs) : Bool :=
  inputs.origins.any fun o => originTruthy o && (originPrivateFlag o == some true)

/-- Modelled from the spec: the discrimination, inside the absent
`parseInputOrigins` module, between a storage-bucket url and a
custom-HTTP url of a structured origin (a full URL starts with http). -/
def isBucketUrl (url : String) : Bool := !(url.startsWith "http")

/-- Modelled from the spec: the origin-access-identity principal
reference that `parseInputOrigins` attaches to the S3 config of a
structured origin carrying `private: true`, when an identity id was
provisioned; empty otherwise. -/
def originAccessIdentityRef (oaiId : Option String) (priv : Option Bool) : String :=
  match oaiId, priv with
  | some oid, some true => "origin-access-identity/cloudfront/" ++ oid
  | _, _ => ""

/-- Modelled from the spec: how `parseInputOrigins` (module not under
src/) turns one input origin into one entry of the Origins collection.
A bare string is treated as a storage-bucket domain; identifiers are
generated deterministically from the domain so repeated parses of the
same input agree. -/
def parseOrigin (oaiId : Option String) : InputOrigin → ParsedOrigin
  | .str s =>
      { Id := s
        DomainName := s ++ ".s3.amazonaws.com"
        OriginPath := ""
        CustomHeaders := []
        S3OriginConfig := some { OriginAccessIdentity := "" } }
  | .obj url path headers p =>
      if isBucketUrl url then
        { Id := url
          DomainName := url ++ ".s3.amazonaws.com"
          OriginPath := path.getD ""
          CustomHeaders := headers
          S3OriginConfig := some { OriginAccessIdentity := originAccessIdentityRef oaiId p } }
      else
        { Id := url
          DomainName := url
          OriginPath := path.getD ""
          CustomHeaders := headers
          S3OriginConfig := none }

/-- Modelled from the spec: a structured origin with a `path` also
produces one CacheBehaviors entry routing that path to this origin; an
origin without a path produces none. -/
def originBehavior : InputOrigin → Option CacheBehaviorRec
  | .str _ => none
  | .obj url path _ _ => path.map fun p => { PathPattern := p, TargetOriginId := url }

/-- Result shape of `parseInputOrigins`: the Origins collection plus an
optional CacheBehaviors collection (absent when no origin has a path). -/
structure ParseInputOriginsResult where
  Origins : OriginsRec
  CacheBehaviors : Option CacheBehaviorsRec
deriving DecidableEq, Repr

/-- Modelled from the spec: `parseInputOrigins` (module not under src/).
Each input origin yields exactly one Origins item; origins with a path
additionally yield one cache behavior; the CacheBehaviors collection is
omitted when empty. -/
def parseInputOrigins (origins : List InputOrigin) (oaiId : Option String) :
    ParseInputOriginsResult :=
  let items := origins.map (parseOrigin oaiId)
  let behaviors := origins.filterMap originBehavior
  { Origins := { Quantity := items.length, Items := items }
    CacheBehaviors :=
      if behaviors.isEmpty then none
      else some { Quantity := behaviors.length, Items := behaviors } }

/-- Empty defaults configuration: every recognized option absent. -/
def emptyCacheDefaults : CacheDefaults :=
  { allowedHttpMethods := none
    forwardCookies := none
    forwardQueryString := none
    forwardHeaders := none
    minTTL := none
    maxTTL := none
    defaultTTL := none
    viewerProtocolPolicy := none }

/-- Modelled from the spec: `getDefaultCacheBehavior` (module not under
src/) binds the single default cache behavior to the given origin id;
each recognized option of `defaults` independently overrides a
hard-coded default, absent options fall back silently. -/
def getDefaultCacheBehavior (targetOriginId : String)
    (defaults : Option CacheDefaults) : DefaultCacheBehaviorRec :=
  let d := defaults.getD emptyCacheDefaults
  { TargetOriginId := targetOriginId
    AllowedMethods := d.allowedHttpMethods.getD ["HEAD", "GET"]
    ForwardedValues :=
      { QueryString := d.forwardQueryString.getD false
        Cookies := d.forwardCookies.getD "none"
        Headers := d.forwardHeaders.getD [] }
    MinTTL := d.minTTL.getD 0
    DefaultTTL := d.defaultTTL.getD 86400
    MaxTTL := d.maxTTL.getD 31536000
    ViewerProtocolPolicy := d.viewerProtocolPolicy.getD "redirect-to-https" }

/-- A JavaScript error value: an optional `code` property (provider
errors carry one, plain `Error` objects do not) and a message. -/
structure JsError where
  code : Option String
  message : String
deriving DecidableEq, Repr

/-- The fixed generic error thrown on a missing distribution config. -/
def couldNotGetConfigError : JsError :=
  { code := none, message := "Could not get a distribution config" }

/-- The runtime TypeError raised by `Origins.Items[0].Id` on an empty
parsed origin list (reading a property of `undefined`). -/
def jsTypeError : JsError :=
  { code := none, message := "TypeError: cannot read property Id of undefined" }

/-- An update-distribution request: id, optional IfMatch concurrency
token, and the config to write. -/
structure UpdateDistributionRequest where
  Id : String
  IfMatch : Option String
  DistributionConfig : DistributionConfigRec
deriving DecidableEq, Repr

/-- A create-distribution request. -/
structure CreateDistributionRequest where
  DistributionConfig : DistributionConfigRec
deriving DecidableEq, Repr

/-- One provider call issued by the module, in issue order. -/
inductive ApiEvent
  | getDistributionConfig (id : String)
  | createOriginAccessIdentity
  | grantBucketAccess (bucketName : String) (canonicalUserId : String)
  | createDistribution (req : CreateDistributionRequest)
  | updateDistribution (req : UpdateDistributionRequest)
  | deleteDistribution (id : String) (ifMatch : Option String)
deriving DecidableEq, Repr

/-- Response of getDistributionConfig: both fields optional in the SDK. -/
structure GetDistributionConfigResult where
  DistributionConfig : Option DistributionConfigRec
  ETag : Option String
deriving DecidableEq, Repr

/-- Response of createOriginAccessIdentity as destructured by index.ts. -/
structure OriginAccessIdentityResult where
  originAccessIdentityId : String
  s3CanonicalUserId : String
deriving DecidableEq, Repr

/-- The distribution record inside create/update responses. -/
structure DistributionRec where
  Id : String
  ARN : String
  DomainName : String
deriving DecidableEq, Repr

/-- Environment: the outcome the provider would give to each call. -/
structure Env where
  getConfigResult : Except JsError GetDistributionConfigResult
  oaiResult : Except JsError OriginAccessIdentityResult
  grantResult : String → Except JsError Unit
  createResult : Except JsError (Option DistributionRec)
  updateResult : Except JsError (Option DistributionRec)
  deleteResult : Except JsError Unit

/-- The normalized result triple returned by create/update/disable. -/
structure OperationResult where
  id : Option String
  arn : Option String
  url : String
deriving DecidableEq, Repr

/-- Lines 73-77 of index.ts: optional chaining plus template string
(an absent distribution yields the literal "https://undefined"). -/
def normalizeResult (d : Option DistributionRec) : OperationResult :=
  { id := d.map (fun dist => dist.Id)
    arn := d.map (fun dist => dist.ARN)
    url := "https://" ++ (match d with | some dist => dist.DomainName | none => "undefined") }

/-- Promise.all over already-settled outcomes: the first rejection (in
order) rejects the aggregate, otherwise all fulfillment values. -/
def promiseAll {α : Type} : List (Except JsError α) → Except JsError (List α)
  | [] => .ok []
  | .error e :: _ => .error e
  | .ok a :: rest => (promiseAll rest).map (fun l => a :: l)

/-- Lines 14-29 of index.ts: filter the parsed origins to the
storage-bucket-backed ones, take their Id as bucket name, and grant
bucket access to each concurrently via Promise.all. All grant calls are
issued (events), the aggregate result is the Promise.all join. -/
def updateBucketsPolicies (grant : String → Except JsError Unit)
    (origins : OriginsRec) (s3CanonicalUserId : String) :
    List ApiEvent × Except JsError (List Unit) :=
  let bucketNames := (origins.Items.filter fun o => o.S3OriginConfig.isSome).map
    (fun o => o.Id)
  (bucketNames.map fun b => ApiEvent.grantBucketAccess b s3CanonicalUserId,
   promiseAll (bucketNames.map grant))

/-- The conditional policy-granting step shared by create and update
(lines 47-49 and 108-110): runs only when `s3CanonicalUserId` is truthy
(assigned and nonempty). -/
def grantStep (env : Env) (canonicalId : Option String) (origins : OriginsRec) :
    List ApiEvent × Except JsError (List Unit) :=
  match canonicalId with
  | none => ([], .ok [])
  | some cid =>
      if cid = "" then ([], .ok [])
      else updateBucketsPolicies env.grantResult origins cid

/-- Lines 51-69 of index.ts: the create-request DistributionConfig
literal. The `Origins.Items[0].Id` access crashes with a TypeError when
the parsed origin list is empty. -/
def buildCreateConfig (now : Nat) (inputs : CloudFrontInputs)
    (originsRec : OriginsRec) (behaviors : Option CacheBehaviorsRec) :
    Except JsError DistributionConfigRec :=
  match originsRec.Items.head? with
  | none => .error jsTypeError
  | some firstOrigin =>
      .ok { CallerReference := toString now
            Comment := inputs.comment
            Aliases := some { Quantity := 0, Items := [] }
            Origins := originsRec
            PriceClass := some "PriceClass_All"
            Enabled := inputs.enabled
            HttpVersion := some "http2"
            DefaultCacheBehavior := getDefaultCacheBehavior firstOrigin.Id inputs.defaults
            CacheBehaviors := behaviors }

/-- Lines 112-126 of index.ts: the update-request DistributionConfig
literal. CallerReference comes from the fetched config; Aliases,
PriceClass and HttpVersion are not mentioned by the literal and are
therefore absent. -/
def buildUpdateConfig (fetched : DistributionConfigRec)
    (inputs : CloudFrontInputs) (originsRec : OriginsRec)
    (behaviors : Option CacheBehaviorsRec) :
    Except JsError DistributionConfigRec :=
  match originsRec.Items.head? with
  | none => .error jsTypeError
  | some firstOrigin =>
      .ok { CallerReference := fetched.CallerReference
            Enabled := inputs.enabled
            Comment := inputs.comment
            DefaultCacheBehavior := getDefaultCacheBehavior firstOrigin.Id inputs.defaults
            Origins := originsRec
            CacheBehaviors := behaviors
            Aliases := none
            PriceClass := none
            HttpVersion := none }

/-- Events issued after the grant step: the create/update call happens
only when the grants succeeded and the request literal was built without
a crash (otherwise the enclosing async function has already thrown). -/
def postGrantEvents (gres : Except JsError (List Unit))
    (built : Except JsError DistributionConfigRec)
    (mk : DistributionConfigRec → ApiEvent) : List ApiEvent :=
  match gres, built with
  | .ok _, .ok cfg => [mk cfg]
  | _, _ => []

/-- Result after the grant step: a grant rejection propagates first,
then a crash of the request literal, then the provider call outcome. -/
def postGrantResult (gres : Except JsError (List Unit))
    (built : Except JsError DistributionConfigRec)
    (callResult : Except JsError (Option DistributionRec)) :
    Except JsError OperationResult :=
  match gres, built with
  | .error e, _ => .error e
  | .ok _, .error e => .error e
  | .ok _, .ok _ =>
      match callResult with
      | .error e => .error e
      | .ok d => .ok (normalizeResult d)

/-- Continuation of createCloudFrontDistribution after the conditional
origin-access-identity step: parse origins, grant bucket policies when a
canonical user id is available, build and issue the create request. -/
def createAfterOai (env : Env) (now : Nat) (inputs : CloudFrontInputs)
    (oaiId : Option String) (canonicalId : Option String) (ev0 : List ApiEvent) :
    List ApiEvent × Except JsError OperationResult :=
  let pr := parseInputOrigins inputs.origins oaiId
  let gs := grantStep env canonicalId pr.Origins
  let bc := buildCreateConfig now inputs pr.Origins pr.CacheBehaviors
  (ev0 ++ gs.1 ++ postGrantEvents gs.2 bc
      (fun cfg => ApiEvent.createDistribution { DistributionConfig := cfg }),
   postGrantResult gs.2 bc env.createResult)

/-- Lines 31-78 of index.ts: createCloudFrontDistribution. `now` stands
for Date.now() at the moment of the call. -/
def createCloudFrontDistribution (env : Env) (now : Nat)
    (inputs : CloudFrontInputs) : List ApiEvent × Except JsError OperationResult :=
  if servePrivateContentEnabled inputs then
    match env.oaiResult with
    | .error e => ([ApiEvent.createOriginAccessIdentity], .error e)
    | .ok oai =>
        createAfterOai env now inputs (some oai.originAccessIdentityId)
          (some oai.s3CanonicalUserId) [ApiEvent.createOriginAccessIdentity]
  else
    createAfterOai env now inputs none none []

/-- Continuation of updateCloudFrontDistribution after the conditional
origin-access-identity step. -/
def updateAfterOai (env : Env) (distributionId : String)
    (inputs : CloudFrontInputs) (resp : GetDistributionConfigResult)
    (fetched : DistributionConfigRec) (oaiId : Option String)
    (canonicalId : Option String) (ev0 : List ApiEvent) :
    List ApiEvent × Except JsError OperationResult :=
  let pr := parseInputOrigins inputs.origins oaiId
  let gs := grantStep env canonicalId pr.Origins
  let bu := buildUpdateConfig fetched inputs pr.Origins pr.CacheBehaviors
  (ev0 ++ gs.1 ++ postGrantEvents gs.2 bu
      (fun cfg => ApiEvent.updateDistribution
        { Id := distributionId, IfMatch := resp.ETag, DistributionConfig := cfg }),
   postGrantResult gs.2 bu env.updateResult)

/-- Lines 80-135 of index.ts: updateCloudFrontDistribution. -/
def updateCloudFrontDistribution (env : Env) (distributionId : String)
    (inputs : CloudFrontInputs) : List ApiEvent × Except JsError OperationResult :=
  let ev0 := [ApiEvent.getDistributionConfig distributionId]
  match env.getConfigResult with
  | .error e => (ev0, .error e)
  | .ok resp =>
      match resp.DistributionConfig with
      | none => (ev0, .error couldNotGetConfigError)
      | some fetched =>
          if servePrivateContentEnabled inputs then
            match env.oaiResult with
            | .error e => (ev0 ++ [ApiEvent.createOriginAccessIdentity], .error e)
            | .ok oai =>
                updateAfterOai env distributionId inputs resp fetched
                  (some oai.originAccessIdentityId) (some oai.s3CanonicalUserId)
                  (ev0 ++ [ApiEvent.createOriginAccessIdentity])
          else
            updateAfterOai env distributionId inputs resp fetched none none ev0

/-- Lines 146-156 of index.ts: the config submitted by the disable
fallback. It carries over CallerReference, Comment, DefaultCacheBehavior
and Origins from the fetched config, sets Enabled to false, and does not
mention CacheBehaviors, Aliases, PriceClass or HttpVersion. -/
def buildDisableConfig (fetched : DistributionConfigRec) : DistributionConfigRec :=
  { CallerReference := fetched.CallerReference
    Enabled := false
    Comment := fetched.Comment
    DefaultCacheBehavior := fetched.DefaultCacheBehavior
    Origins := fetched.Origins
    CacheBehaviors := none
    Aliases := none
    PriceClass := none
    HttpVersion := none }

/-- Lines 137-165 of index.ts: disableCloudFrontDistribution. -/
def disableCloudFrontDistribution (env : Env) (distributionId : String) :
    List ApiEvent × Except JsError OperationResult :=
  let ev0 := [ApiEvent.getDistributionConfig distributionId]
  match env.getConfigResult with
  | .error e => (ev0, .error e)
  | .ok resp =>
      match resp.DistributionConfig with
      | none => (ev0, .error couldNotGetConfigError)
      | some fetched =>
          let req : UpdateDistributionRequest :=
            { Id := distributionId, IfMatch := resp.ETag
              DistributionConfig := buildDisableConfig fetched }
          let ev1 := ev0 ++ [ApiEvent.updateDistribution req]
          match env.updateResult with
          | .error e => (ev1, .error e)
          | .ok d => (ev1, .ok (normalizeResult d))

/-- Lines 167-180 of index.ts: deleteCloudFrontDistribution. The whole
try block (fetch plus delete) shares one catch testing the error code. -/
def deleteCloudFrontDistribution (env : Env) (distributionId : String) :
    List ApiEvent × Except JsError Unit :=
  let ev0 := [ApiEvent.getDistributionConfig distributionId]
  match env.getConfigResult with
  | .error e =>
      if e.code == some "DistributionNotDisabled" then
        let d := disableCloudFrontDistribution env distributionId
        (ev0 ++ d.1, d.2.map fun _ => ())
      else (ev0, .error e)
  | .ok resp =>
      let ev1 := ev0 ++ [ApiEvent.deleteDistribution distributionId resp.ETag]
      match env.deleteResult with
      | .ok _ => (ev1, .ok ())
      | .error e =>
          if e.code == some "DistributionNotDisabled" then
            let d := disableCloudFrontDistribution env distributionId
            (ev1 ++ d.1, d.2.map fun _ => ())
          else (ev1, .error e)

/-- Tests whether an event is a delete-distribution call. -/
def isDeleteEvent : ApiEvent → Bool
  | .deleteDistribution _ _ => true
  | _ => false

/-- Tests whether an event is a bucket-policy grant call. -/
def isGrantEvent : ApiEvent → Bool
  | .grantBucketAccess _ _ => true
  | _ => false

/-- A sample storage-bucket-backed parsed origin. -/
def sampleOrigin : ParsedOrigin :=
  { Id := "bucket1"
    DomainName := "bucket1.s3.amazonaws.com"
    OriginPath := ""
    CustomHeaders := []
    S3OriginConfig := some { OriginAccessIdentity := "" } }

/-- A sample fetched config carrying every optional field, so that the
disable fallback visibly drops them. -/
def fetchedC1 : DistributionConfigRec :=
  { CallerReference := "1600000000000"
    Comment := "site"
    Enabled := true
    Origins := { Quantity := 1, Items := [sampleOrigin] }
    DefaultCacheBehavior := getDefaultCacheBehavior "bucket1" none
    CacheBehaviors := some { Quantity := 1, Items := [{ PathPattern := "/api", TargetOriginId := "bucket1" }] }
    Aliases := some { Quantity := 1, Items := ["example.com"] }
    PriceClass := some "PriceClass_100"
    HttpVersion := some "http2" }

/-- A minimal fetched config. -/
def fetchedC2 : DistributionConfigRec :=
  { CallerReference := "1500000000000"
    Comment := "old"
    Enabled := true
    Origins := { Quantity := 1, Items := [sampleOrigin] }
    DefaultCacheBehavior := getDefaultCacheBehavior "bucket1" none
    CacheBehaviors := none
    Aliases := none
    PriceClass := none
    HttpVersion := none }

/-- Sample get-config response holding `fetchedC1`. -/
def respC1 : GetDistributionConfigResult :=
  { DistributionConfig := some fetchedC1, ETag := some "E1" }

/-- Sample get-config response holding `fetchedC2`. -/
def respC2 : GetDistributionConfigResult :=
  { DistributionConfig := some fetchedC2, ETag := some "E2" }

/-- Sample get-config response with the config absent. -/
def respC3 : GetDistributionConfigResult :=
  { DistributionConfig := none, ETag := some "E3" }

/-- The provider error signalling an enabled distribution on delete. -/
def errNotDisabled : JsError :=
  { code := some "DistributionNotDisabled", message := "The distribution is currently enabled" }

/-- A provider error with a different code. -/
def errAccessDenied : JsError :=
  { code := some "AccessDenied", message := "Access denied" }

/-- Sample distribution record of create/update responses. -/
def distC2 : DistributionRec :=
  { Id := "dist2", ARN := "arn2", DomainName := "d2.cloudfront.net" }

/-- Base environment in which every provider call succeeds. -/
def baseEnv : Env :=
  { getConfigResult := .ok respC2
    oaiResult := .ok { originAccessIdentityId := "OAI1", s3CanonicalUserId := "CANON1" }
    grantResult := fun _ => .ok ()
    createResult := .ok (some distC2)
    updateResult := .ok (some distC2)
    deleteResult := .ok () }

/-- Environment returning the rich config `fetchedC1`. -/
def envC1 : Env := { baseEnv with getConfigResult := .ok respC1 }

/-- Environment in which the delete attempt fails with
DistributionNotDisabled and the subsequent disable succeeds. -/
def envC2 : Env := { baseEnv with deleteResult := .error errNotDisabled }

/-- Environment whose get-config response has no DistributionConfig. -/
def envC3 : Env := { baseEnv with getConfigResult := .ok respC3 }

/-- Simple inputs: one bare-string origin, nothing private. -/
def inputs0 : CloudFrontInputs :=
  { origins := [.str "my-bucket"], defaults := none, comment := "x", enabled := true }

/-- The Origins collection parsed from `inputs0` without an identity. -/
def originsRec0 : OriginsRec := (parseInputOrigins inputs0.origins none).Origins

/-- A fetched config that is exactly what the update builder produces
from `inputs0` (a fixed point of the rewrite, up to CallerReference). -/
def fetchedFix : DistributionConfigRec :=
  { CallerReference := "caller0"
    Enabled := true
    Comment := "x"
    DefaultCacheBehavior := getDefaultCacheBehavior "my-bucket" none
    Origins := originsRec0
    CacheBehaviors := none
    Aliases := none
    PriceClass := none
    HttpVersion := none }

/-- The update request that `updateCloudFrontDistribution baseEnv "dist2"
inputs0` submits. -/
def updReq0 : UpdateDistributionRequest :=
  { Id := "dist2"
    IfMatch := some "E2"
    DistributionConfig :=
      { CallerReference := "1500000000000"
        Enabled := true
        Comment := "x"
        DefaultCacheBehavior := getDefaultCacheBehavior "my-bucket" none
        Origins := originsRec0
        CacheBehaviors := none
        Aliases := none
        PriceClass := none
        HttpVersion := none } }

/-- Inputs with one structured private origin. -/
def inputsPriv : CloudFrontInputs :=
  { origins := [.obj "my-bucket" none [] (some true)]
    defaults := none
    comment := "x"
    enabled := true }

/-- A storage-bucket-backed origin whose Id differs from its DomainName. -/
def s3OriginX : ParsedOrigin :=
  { Id := "bucketX"
    DomainName := "bucketX.s3.amazonaws.com"
    OriginPath := ""
    CustomHeaders := []
    S3OriginConfig := some { OriginAccessIdentity := "" } }

/-- A custom-HTTP-backed origin (no S3OriginConfig). -/
def customOriginX : ParsedOrigin :=
  { Id := "https://api.example.com"
    DomainName := "api.example.com"
    OriginPath := ""
    CustomHeaders := []
    S3OriginConfig := none }

/-- A second storage-bucket-backed origin. -/
def s3OriginA : ParsedOrigin :=
  { Id := "bucketA"
    DomainName := "bucketA.s3.amazonaws.com"
    OriginPath := ""
    CustomHeaders := []
    S3OriginConfig := some { OriginAccessIdentity := "" } }

/-- A third storage-bucket-backed origin. -/
def s3OriginZ : ParsedOrigin :=
  { Id := "bucketZ"
    DomainName := "bucketZ.s3.amazonaws.com"
    OriginPath := ""
    CustomHeaders := []
    S3OriginConfig := some { OriginAccessIdentity := "" } }

/-- Mixed Origins collection: one bucket-backed, one custom. -/
def originsX : OriginsRec := { Quantity := 2, Items := [s3OriginX, customOriginX] }

/-- Origins collection with three bucket-backed origins. -/
def originsY : OriginsRec := { Quantity := 3, Items := [s3OriginA, s3OriginX, s3OriginZ] }

/-- A grant outcome function that always succeeds. -/
def grantOk : String → Except JsError Unit := fun _ => .ok ()

/-- A grant outcome function failing exactly on bucketX. -/
def grantX : String → Except JsError Unit :=
  fun b => if b = "bucketX" then .error errAccessDenied else .ok ()

/-- The origin-access-identity record returned inside `baseEnv`. -/
def oaiRec : OriginAccessIdentityResult :=
  { originAccessIdentityId := "OAI1", s3CanonicalUserId := "CANON1" }

end NextDeploy

namespace NextDeploy

/-! Helper lemmas shared by the claim theorems. -/

theorem promiseAll_all_ok {α : Type} (xs : List (Except JsError α))
    (h : ∀ x ∈ xs, ∃ a, x = .ok a) : ∃ l, promiseAll xs = .ok l := by
  induction xs with
  | nil => exact ⟨[], rfl⟩
  | cons x rest ih =>
      obtain ⟨a, ha⟩ := h x (List.mem_cons_self x rest)
      obtain ⟨l, hl⟩ := ih (fun y hy => h y (List.mem_cons_of_mem x hy))
      subst ha
      exact ⟨a :: l, by simp [promiseAll, hl, Except.map]⟩

theorem promiseAll_first_error {α : Type} (ys zs : List (Except JsError α))
    (e : JsError) (hys : ∀ y ∈ ys, ∃ a, y = .ok a) :
    promiseAll (ys ++ .error e :: zs) = .error e := by
  induction ys with
  | nil => rfl
  | cons y rest ih =>
      obtain ⟨a, ha⟩ := hys y (List.mem_cons_self y rest)
      subst ha
      have := ih (fun y2 hy2 => hys y2 (List.mem_cons_of_mem _ hy2))
      simp [promiseAll, this, Except.map]

theorem grantStep_all_grants (env : Env) (canonicalId : Option String)
    (origins : OriginsRec) :
    ∀ ev ∈ (grantStep env canonicalId origins).1, isGrantEvent ev = true := by
  intro ev hev
  cases canonicalId with
  | none => simp [grantStep] at hev
  | some cid =>
      by_cases hc : cid = ""
      · simp [grantStep, hc] at hev
      · simp [grantStep, hc, updateBucketsPolicies] at hev
        obtain ⟨b, hb, hev⟩ := hev
        rw [← hev]
        rfl

theorem postGrantEvents_mem (gres : Except JsError (List Unit))
    (built : Except JsError DistributionConfigRec)
    (mk : DistributionConfigRec → ApiEvent) :
    ∀ ev ∈ postGrantEvents gres built mk,
      ∃ cfg, built = .ok cfg ∧ (∃ l, gres = .ok l) ∧ ev = mk cfg := by
  intro ev hev
  cases gres <;> cases built <;> simp [postGrantEvents] at hev
  case ok.ok l cfg =>
    exact ⟨cfg, rfl, ⟨l, rfl⟩, hev⟩

theorem buildUpdateConfig_ok (fetched : DistributionConfigRec)
    (inputs : CloudFrontInputs) (originsRec : OriginsRec)
    (behaviors : Option CacheBehaviorsRec) (cfg : DistributionConfigRec)
    (h : buildUpdateConfig fetched inputs originsRec behaviors = .ok cfg) :
    cfg.CallerReference = fetched.CallerReference ∧
    cfg.Enabled = inputs.enabled ∧ cfg.Comment = inputs.comment ∧
    cfg.Origins = originsRec ∧ cfg.CacheBehaviors = behaviors := by
  unfold buildUpdateConfig at h
  cases h0 : originsRec.Items.head? with
  | none => rw [h0] at h; cases h
  | some firstOrigin =>
      rw [h0] at h
      cases h
      exact ⟨rfl, rfl, rfl, rfl, rfl⟩

theorem updateAfterOai_update_events (env : Env) (distributionId : String)
    (inputs : CloudFrontInputs) (resp : GetDistributionConfigResult)
    (fetched : DistributionConfigRec) (oaiId : Option String)
    (canonicalId : Option String) (ev0 : List ApiEvent) :
    ∀ req, ApiEvent.updateDistribution req ∈
        (updateAfterOai env distributionId inputs resp fetched oaiId canonicalId ev0).1 →
      ApiEvent.updateDistribution req ∈ ev0 ∨
      (req.Id = distributionId ∧ req.IfMatch = resp.ETag ∧
        buildUpdateConfig fetched inputs
          (parseInputOrigins inputs.origins oaiId).Origins
          (parseInputOrigins inputs.origins oaiId).CacheBehaviors =
            .ok req.DistributionConfig) := by
  intro req hmem
  simp only [updateAfterOai, List.append_assoc, List.mem_append] at hmem
  rcases hmem with h0 | hg | ht
  · exact Or.inl h0
  · have := grantStep_all_grants env canonicalId
      (parseInputOrigins inputs.origins oaiId).Origins _ hg
    simp [isGrantEvent] at this
  · obtain ⟨cfg, hok, _, hev⟩ := postGrantEvents_mem _ _ _ _ ht
    cases hev
    exact Or.inr ⟨rfl, rfl, hok⟩

theorem disable_countP_delete_zero (env : Env) (id : String) :
    (disableCloudFrontDistribution env id).1.countP (fun ev => isDeleteEvent ev) = 0 := by
  unfold disableCloudFrontDistribution
  cases h : env.getConfigResult with
  | error e => simp [isDeleteEvent]
  | ok resp =>
      cases hc : resp.DistributionConfig with
      | none => simp [hc, isDeleteEvent]
      | some fetched => cases hu : env.updateResult <;> simp [hc, isDeleteEvent]

/-- C1 (counterexample): the internal disable operation does not carry
every field of the fetched config over to the submitted update. On the
concrete environment `envC1`, whose fetched config has CacheBehaviors,
Aliases and PriceClass present, the submitted DistributionConfig is not
the fetched config with Enabled flipped: those three fields are absent
from the submitted request. -/
theorem c1_disable_preserves_all_fields_cex :
    (disableCloudFrontDistribution envC1 "dist1").1 =
      [ApiEvent.getDistributionConfig "dist1",
       ApiEvent.updateDistribution
         { Id := "dist1", IfMatch := some "E1"
           DistributionConfig := buildDisableConfig fetchedC1 }] ∧
    buildDisableConfig fetchedC1 ≠ { fetchedC1 with Enabled := false } ∧
    (buildDisableConfig fetchedC1).CacheBehaviors ≠ fetchedC1.CacheBehaviors ∧
    (buildDisableConfig fetchedC1).Aliases ≠ fetchedC1.Aliases ∧
    (buildDisableConfig fetchedC1).PriceClass ≠ fetchedC1.PriceClass := by
  refine ⟨rfl, by decide, by decide, by decide, by decide⟩

/-- C1 (amended): for every distribution id, the disable operation
submits exactly one update request, guarded by the fetched ETag as
IfMatch, whose DistributionConfig sets Enabled to false and carries over
CallerReference, Comment, DefaultCacheBehavior and Origins from the
fetched config, while CacheBehaviors, Aliases, PriceClass and
HttpVersion are omitted from the submitted config. -/
theorem c1_disable_flips_enabled_carries_core_fields
    (env : Env) (distributionId : String) (resp : GetDistributionConfigResult)
    (fetched : DistributionConfigRec)
    (hget : env.getConfigResult = .ok resp)
    (hcfg : resp.DistributionConfig = some fetched) :
    (disableCloudFrontDistribution env distributionId).1 =
      [ApiEvent.getDistributionConfig distributionId,
       ApiEvent.updateDistribution
         { Id := distributionId, IfMatch := resp.ETag
           DistributionConfig := buildDisableConfig fetched }] ∧
    (buildDisableConfig fetched).Enabled = false ∧
    (buildDisableConfig fetched).CallerReference = fetched.CallerReference ∧
    (buildDisableConfig fetched).Comment = fetched.Comment ∧
    (buildDisableConfig fetched).DefaultCacheBehavior = fetched.DefaultCacheBehavior ∧
    (buildDisableConfig fetched).Origins = fetched.Origins ∧
    (buildDisableConfig fetched).CacheBehaviors = none ∧
    (buildDisableConfig fetched).Aliases = none ∧
    (buildDisableConfig fetched).PriceClass = none ∧
    (buildDisableConfig fetched).HttpVersion = none := by
  refine ⟨?_, rfl, rfl, rfl, rfl, rfl, rfl, rfl, rfl, rfl⟩
  unfold disableCloudFrontDistribution
  rw [hget]
  cases hu : env.updateResult <;> simp [hcfg]

/-- C1 (witness): the amended disable theorem applied to `envC1`. -/
theorem c1_disable_flips_enabled_carries_core_fields_witness :
    envC1.getConfigResult = .ok respC1 ∧
    respC1.DistributionConfig = some fetchedC1 ∧
    (disableCloudFrontDistribution envC1 "dist1").1 =
      [ApiEvent.getDistributionConfig "dist1",
       ApiEvent.updateDistribution
         { Id := "dist1", IfMatch := respC1.ETag
           DistributionConfig := buildDisableConfig fetchedC1 }] :=
  ⟨rfl, rfl,
    (c1_disable_flips_enabled_carries_core_fields envC1 "dist1" respC1 fetchedC1 rfl rfl).1⟩

/-- C3 (counterexample): deleteCloudFrontDistribution does not check for
a missing DistributionConfig. On `envC3`, whose get-config response has
no DistributionConfig but does carry an ETag, delete still issues the
delete write with that ETag and returns successfully instead of failing
with the fixed message. -/
theorem c3_delete_missing_config_cex :
    deleteCloudFrontDistribution envC3 "dist3" =
      ([ApiEvent.getDistributionConfig "dist3",
        ApiEvent.deleteDistribution "dist3" (some "E3")], .ok ()) ∧
    (deleteCloudFrontDistribution envC3 "dist3").2 ≠ .error couldNotGetConfigError :=
  ⟨rfl, fun h => Except.noConfusion h⟩

/-- C3 (amended): for updateCloudFrontDistribution and the internal
disable operation, a get-config response without a DistributionConfig
makes the operation fail with the fixed message of
`couldNotGetConfigError` after the fetch and before any further provider
call; deleteCloudFrontDistribution performs no such check and proceeds
to the delete attempt with the fetched ETag. -/
theorem c3_missing_config_guard
    (env : Env) (distributionId : String) (inputs : CloudFrontInputs)
    (resp : GetDistributionConfigResult)
    (hget : env.getConfigResult = .ok resp)
    (hmiss : resp.DistributionConfig = none) :
    updateCloudFrontDistribution env distributionId inputs =
      ([ApiEvent.getDistributionConfig distributionId], .error couldNotGetConfigError) ∧
    disableCloudFrontDistribution env distributionId =
      ([ApiEvent.getDistributionConfig distributionId], .error couldNotGetConfigError) ∧
    (deleteCloudFrontDistribution env distributionId).1.take 2 =
      [ApiEvent.getDistributionConfig distributionId,
       ApiEvent.deleteDistribution distributionId resp.ETag] := by
  refine ⟨?_, ?_, ?_⟩
  · unfold updateCloudFrontDistribution
    rw [hget]
    simp [hmiss]
  · unfold disableCloudFrontDistribution
    rw [hget]
    simp [hmiss]
  · unfold deleteCloudFrontDistribution
    rw [hget]
    cases hd : env.deleteResult with
    | ok u => simp
    | error e => cases hb : (e.code == some "DistributionNotDisabled") <;> simp [hb, hmiss]

/-- C3 (witness): the amended guard theorem applied to `envC3`. -/
theorem c3_missing_config_guard_witness :
    envC3.getConfigResult = .ok respC3 ∧
    respC3.DistributionConfig = none ∧
    updateCloudFrontDistribution envC3 "dist3" inputs0 =
      ([ApiEvent.getDistributionConfig "dist3"], .error couldNotGetConfigError) :=
  ⟨rfl, rfl, (c3_missing_config_guard envC3 "dist3" inputs0 respC3 rfl rfl).1⟩

/-- C2 (confirmed): for every distribution id, once the config fetch has
succeeded, deleteCloudFrontDistribution first issues the delete attempt
guarded by the fetched ETag; on success it stops there; if the attempt
fails with code DistributionNotDisabled it runs the disable operation,
issues no second delete, and returns successfully whenever the disable
succeeds; if the attempt fails with any other error, that error value
propagates unchanged and nothing further is issued. -/
theorem c2_delete_error_handling
    (env : Env) (distributionId : String) (resp : GetDistributionConfigResult)
    (hget : env.getConfigResult = .ok resp) :
    (deleteCloudFrontDistribution env distributionId).1.take 2 =
      [ApiEvent.getDistributionConfig distributionId,
       ApiEvent.deleteDistribution distributionId resp.ETag] ∧
    (env.deleteResult = .ok () →
      deleteCloudFrontDistribution env distributionId =
        ([ApiEvent.getDistributionConfig distributionId,
          ApiEvent.deleteDistribution distributionId resp.ETag], .ok ())) ∧
    (∀ e, env.deleteResult = .error e → e.code = some "DistributionNotDisabled" →
      (deleteCloudFrontDistribution env distributionId).1 =
        [ApiEvent.getDistributionConfig distributionId,
         ApiEvent.deleteDistribution distributionId resp.ETag]
          ++ (disableCloudFrontDistribution env distributionId).1 ∧
      (deleteCloudFrontDistribution env distributionId).1.countP
        (fun ev => isDeleteEvent ev) = 1 ∧
      (∀ r, (disableCloudFrontDistribution env distributionId).2 = .ok r →
        (deleteCloudFrontDistribution env distributionId).2 = .ok ())) ∧
    (∀ e, env.deleteResult = .error e → e.code ≠ some "DistributionNotDisabled" →
      deleteCloudFrontDistribution env distributionId =
        ([ApiEvent.getDistributionConfig distributionId,
          ApiEvent.deleteDistribution distributionId resp.ETag], .error e)) := by
  refine ⟨?_, ?_, ?_, ?_⟩
  · unfold deleteCloudFrontDistribution
    rw [hget]
    cases hd : env.deleteResult with
    | ok u => simp
    | error e => cases hb : (e.code == some "DistributionNotDisabled") <;> simp [hb]
  · intro hd
    unfold deleteCloudFrontDistribution
    rw [hget, hd]
    simp
  · intro e hd hc
    have hb : (e.code == some "DistributionNotDisabled") = true := by
      simp [hc]
    have hmain : deleteCloudFrontDistribution env distributionId =
        ([ApiEvent.getDistributionConfig distributionId,
          ApiEvent.deleteDistribution distributionId resp.ETag]
            ++ (disableCloudFrontDistribution env distributionId).1,
         (disableCloudFrontDistribution env distributionId).2.map fun _ => ()) := by
      unfold deleteCloudFrontDistribution
      rw [hget, hd]
      simp [hb]
    refine ⟨by rw [hmain], ?_, ?_⟩
    · rw [hmain, List.countP_append, disable_countP_delete_zero]
      rfl
    · intro r hr
      rw [hmain]
      show Except.map (fun _ => ()) (disableCloudFrontDistribution env distributionId).2 = .ok ()
      rw [hr]
      rfl
  · intro e hd hc
    have hb : (e.code == some "DistributionNotDisabled") = false := by
      simp [hc]
    unfold deleteCloudFrontDistribution
    rw [hget, hd]
    simp [hb]

/-- C2 (witness): the delete error-handling theorem applied to `envC2`,
where the delete attempt fails with DistributionNotDisabled and the
disable succeeds. -/
theorem c2_delete_error_handling_witness :
    envC2.getConfigResult = .ok respC2 ∧
    envC2.deleteResult = .error errNotDisabled ∧
    errNotDisabled.code = some "DistributionNotDisabled" ∧
    (deleteCloudFrontDistribution envC2 "dist2").1 =
      [ApiEvent.getDistributionConfig "dist2",
       ApiEvent.deleteDistribution "dist2" (some "E2")]
        ++ (disableCloudFrontDistribution envC2 "dist2").1 ∧
    (deleteCloudFrontDistribution envC2 "dist2").1.countP
      (fun ev => isDeleteEvent ev) = 1 ∧
    (deleteCloudFrontDistribution envC2 "dist2").2 = .ok () := by
  have h := (c2_delete_error_handling envC2 "dist2" respC2 rfl).2.2.1
    errNotDisabled rfl rfl
  exact ⟨rfl, rfl, rfl, h.1, h.2.1, h.2.2 (normalizeResult (some distC2)) rfl⟩

/-- C4 (confirmed): every update request that updateCloudFrontDistribution
submits takes its CallerReference from the fetched config (it is never
regenerated); and when the fetched config is exactly what the builder
produces from the current inputs with enabled true, rebuilding with
enabled false submits the fetched config with only Enabled changed. -/
theorem c4_update_caller_reference_and_enabled_frame
    (env : Env) (distributionId : String) (inputs : CloudFrontInputs) :
    (∀ req, ApiEvent.updateDistribution req ∈
        (updateCloudFrontDistribution env distributionId inputs).1 →
      ∃ resp fetched, env.getConfigResult = .ok resp ∧
        resp.DistributionConfig = some fetched ∧
        req.DistributionConfig.CallerReference = fetched.CallerReference) ∧
    (∀ fetched originsRec behaviors,
      inputs.enabled = true →
      buildUpdateConfig fetched inputs originsRec behaviors = .ok fetched →
      buildUpdateConfig fetched { inputs with enabled := false } originsRec behaviors =
        .ok { fetched with Enabled := false }) := by
  constructor
  · intro req hmem
    cases hget : env.getConfigResult with
    | error e =>
        simp only [updateCloudFrontDistribution, hget] at hmem
        simp at hmem
    | ok resp =>
        simp only [updateCloudFrontDistribution, hget] at hmem
        cases hdc : resp.DistributionConfig with
        | none => simp only [hdc] at hmem; simp at hmem
        | some fetched =>
            simp only [hdc] at hmem
            refine ⟨resp, fetched, rfl, hdc, ?_⟩
            cases hp : servePrivateContentEnabled inputs with
            | false =>
                simp only [hp, Bool.false_eq_true, if_false] at hmem
                rcases updateAfterOai_update_events env distributionId inputs resp
                    fetched none none _ req hmem with h0 | h1
                · simp at h0
                · exact (buildUpdateConfig_ok _ _ _ _ _ h1.2.2).1
            | true =>
                simp only [hp, if_true] at hmem
                cases hoai : env.oaiResult with
                | error e => simp only [hoai] at hmem; simp at hmem
                | ok oai =>
                    simp only [hoai] at hmem
                    rcases updateAfterOai_update_events env distributionId inputs resp
                        fetched (some oai.originAccessIdentityId)
                        (some oai.s3CanonicalUserId) _ req hmem with h0 | h1
                    · simp at h0
                    · exact (buildUpdateConfig_ok _ _ _ _ _ h1.2.2).1
  · intro fetched originsRec behaviors hEnabled hfix
    unfold buildUpdateConfig at hfix ⊢
    cases h0 : originsRec.Items.head? with
    | none => rw [h0] at hfix; cases hfix
    | some firstOrigin =>
        rw [h0] at hfix
        have heq := Except.ok.inj hfix
        rw [← heq]

/-- C4 (witness): the CallerReference theorem applied to `baseEnv` at
the submitted request `updReq0`, and the Enabled-only frame applied to
the fixed-point config `fetchedFix`. -/
theorem c4_update_caller_reference_and_enabled_frame_witness :
    (ApiEvent.updateDistribution updReq0 ∈
      (updateCloudFrontDistribution baseEnv "dist2" inputs0).1) ∧
    (∃ resp fetched, baseEnv.getConfigResult = .ok resp ∧
      resp.DistributionConfig = some fetched ∧
      updReq0.DistributionConfig.CallerReference = fetched.CallerReference) ∧
    inputs0.enabled = true ∧
    buildUpdateConfig fetchedFix inputs0 originsRec0 none = .ok fetchedFix ∧
    buildUpdateConfig fetchedFix { inputs0 with enabled := false } originsRec0 none =
      .ok { fetchedFix with Enabled := false } := by
  have hmem : ApiEvent.updateDistribution updReq0 ∈
      (updateCloudFrontDistribution baseEnv "dist2" inputs0).1 := by decide
  have h1 := (c4_update_caller_reference_and_enabled_frame baseEnv "dist2" inputs0).1
    updReq0 hmem
  have h2 := (c4_update_caller_reference_and_enabled_frame baseEnv "dist2" inputs0).2
    fetchedFix originsRec0 none rfl rfl
  exact ⟨hmem, h1, rfl, rfl, h2⟩

/-- C5 (confirmed, against the spec-modelled parser): for every
non-empty input origin list, the parsed Origins collection has at least
one item, and both the create and the update DistributionConfig bind the
DefaultCacheBehavior target to the Id of the first parsed origin. -/
theorem c5_default_behavior_targets_first_origin
    (inputs : CloudFrontInputs) (oaiId : Option String) (now : Nat)
    (fetched : DistributionConfigRec)
    (h : inputs.origins ≠ []) :
    1 ≤ (parseInputOrigins inputs.origins oaiId).Origins.Items.length ∧
    ∃ firstOrigin,
      (parseInputOrigins inputs.origins oaiId).Origins.Items.head? = some firstOrigin ∧
      (∃ cfg, buildCreateConfig now inputs
          (parseInputOrigins inputs.origins oaiId).Origins
          (parseInputOrigins inputs.origins oaiId).CacheBehaviors = .ok cfg ∧
        cfg.DefaultCacheBehavior.TargetOriginId = firstOrigin.Id) ∧
      (∃ cfg, buildUpdateConfig fetched inputs
          (parseInputOrigins inputs.origins oaiId).Origins
          (parseInputOrigins inputs.origins oaiId).CacheBehaviors = .ok cfg ∧
        cfg.DefaultCacheBehavior.TargetOriginId = firstOrigin.Id) := by
  obtain ⟨a, as, hcons⟩ := List.exists_cons_of_ne_nil h
  rw [hcons]
  refine ⟨by simp [parseInputOrigins], parseOrigin oaiId a, rfl, ⟨_, rfl, rfl⟩, ⟨_, rfl, rfl⟩⟩

/-- C5 (witness): the first-origin theorem applied to `inputs0`. -/
theorem c5_default_behavior_targets_first_origin_witness :
    inputs0.origins ≠ [] ∧
    1 ≤ (parseInputOrigins inputs0.origins none).Origins.Items.length :=
  ⟨by decide, (c5_default_behavior_targets_first_origin inputs0 none 0 fetchedC2
    (by decide)).1⟩

/-- C8 (confirmed, against the spec-modelled parser): when the parsed
origin list is non-empty the first-item index access of the create and
update builders is in bounds (the out-of-bounds branch is unreachable,
both builders return ok); when the input origin list is empty, no
defensive check exists: both builders fail with the modelled runtime
TypeError `jsTypeError`, which is not the handled fixed-message error. -/
theorem c8_first_origin_index_in_bounds
    (inputs : CloudFrontInputs) (oaiId : Option String) (now : Nat)
    (fetched : DistributionConfigRec) :
    ((parseInputOrigins inputs.origins oaiId).Origins.Items ≠ [] →
      (∃ cfg, buildCreateConfig now inputs
          (parseInputOrigins inputs.origins oaiId).Origins
          (parseInputOrigins inputs.origins oaiId).CacheBehaviors = .ok cfg) ∧
      (∃ cfg, buildUpdateConfig fetched inputs
          (parseInputOrigins inputs.origins oaiId).Origins
          (parseInputOrigins inputs.origins oaiId).CacheBehaviors = .ok cfg)) ∧
    (inputs.origins = [] →
      buildCreateConfig now inputs
          (parseInputOrigins inputs.origins oaiId).Origins
          (parseInputOrigins inputs.origins oaiId).CacheBehaviors = .error jsTypeError ∧
      buildUpdateConfig fetched inputs
          (parseInputOrigins inputs.origins oaiId).Origins
          (parseInputOrigins inputs.origins oaiId).CacheBehaviors = .error jsTypeError ∧
      jsTypeError ≠ couldNotGetConfigError) := by
  constructor
  · intro hne
    cases hl : (parseInputOrigins inputs.origins oaiId).Origins.Items with
    | nil => exact absurd hl hne
    | cons o0 rest =>
        constructor
        · unfold buildCreateConfig
          rw [hl]
          exact ⟨_, rfl⟩
        · unfold buildUpdateConfig
          rw [hl]
          exact ⟨_, rfl⟩
  · intro h0
    rw [h0]
    exact ⟨rfl, rfl, by decide⟩

/-- C8 (witness): the in-bounds theorem applied to `inputs0` (non-empty
side) and to inputs with an empty origin list (crash side). -/
theorem c8_first_origin_index_in_bounds_witness :
    (parseInputOrigins inputs0.origins none).Origins.Items ≠ [] ∧
    (∃ cfg, buildCreateConfig 0 inputs0
        (parseInputOrigins inputs0.origins none).Origins
        (parseInputOrigins inputs0.origins none).CacheBehaviors = .ok cfg) ∧
    buildCreateConfig 0 { inputs0 with origins := [] }
        (parseInputOrigins [] none).Origins
        (parseInputOrigins [] none).CacheBehaviors = .error jsTypeError := by
  have hne : (parseInputOrigins inputs0.origins none).Origins.Items ≠ [] := by decide
  refine ⟨hne,
    ((c8_first_origin_index_in_bounds inputs0 none 0 fetchedC2).1 hne).1,
    ((c8_first_origin_index_in_bounds { inputs0 with origins := [] } none 0
      fetchedC2).2 rfl).1⟩

/-- C7 (confirmed): updateBucketsPolicies selects exactly the parsed
origins carrying an S3OriginConfig, issues one grant call per selected
origin, succeeds only when every grant succeeds, and on any failure the
aggregate fails with the first rejection while the full fan-out of grant
calls is still issued (no retry, no rollback, no partial-success
reporting). -/
theorem c7_bucket_policy_fanout
    (grant : String → Except JsError Unit) (origins : OriginsRec) (cid : String) :
    (updateBucketsPolicies grant origins cid).1 =
      ((origins.Items.filter fun o => o.S3OriginConfig.isSome).map fun o => o.Id).map
        (fun b => ApiEvent.grantBucketAccess b cid) ∧
    ((∀ b ∈ (origins.Items.filter fun o => o.S3OriginConfig.isSome).map
        (fun o => o.Id), grant b = .ok ()) →
      ∃ l, (updateBucketsPolicies grant origins cid).2 = .ok l) ∧
    (∀ l1 b l2 e,
      (origins.Items.filter fun o => o.S3OriginConfig.isSome).map (fun o => o.Id) =
        l1 ++ b :: l2 →
      grant b = .error e →
      (∀ b2 ∈ l1, grant b2 = .ok ()) →
      (updateBucketsPolicies grant origins cid).2 = .error e ∧
      (updateBucketsPolicies grant origins cid).1 =
        (l1 ++ b :: l2).map (fun b2 => ApiEvent.grantBucketAccess b2 cid)) := by
  refine ⟨rfl, ?_, ?_⟩
  · intro h
    apply promiseAll_all_ok
    intro x hx
    rw [List.mem_map] at hx
    obtain ⟨b, hb, hxb⟩ := hx
    exact ⟨(), by rw [← hxb, h b hb]⟩
  · intro l1 b l2 e hsplit hgb hok
    constructor
    · show promiseAll (((origins.Items.filter fun o => o.S3OriginConfig.isSome).map
        (fun o => o.Id)).map grant) = .error e
      rw [hsplit, List.map_append, List.map_cons, hgb]
      apply promiseAll_first_error
      intro y hy
      rw [List.mem_map] at hy
      obtain ⟨b2, hb2, hyb⟩ := hy
      exact ⟨(), by rw [← hyb, hok b2 hb2]⟩
    · show (((origins.Items.filter fun o => o.S3OriginConfig.isSome).map
        (fun o => o.Id)).map (fun b2 => ApiEvent.grantBucketAccess b2 cid)) = _
      rw [hsplit]

/-- C7 (witness): the fan-out theorem applied to `originsY` and the
grant function `grantX` that rejects exactly bucketX: the aggregate
fails with that rejection while all three grant calls are issued. -/
theorem c7_bucket_policy_fanout_witness :
    (originsY.Items.filter fun o => o.S3OriginConfig.isSome).map (fun o => o.Id) =
      ["bucketA"] ++ "bucketX" :: ["bucketZ"] ∧
    grantX "bucketX" = .error errAccessDenied ∧
    (updateBucketsPolicies grantX originsY "CANON1").2 = .error errAccessDenied ∧
    (updateBucketsPolicies grantX originsY "CANON1").1 =
      (["bucketA"] ++ "bucketX" :: ["bucketZ"]).map
        (fun b2 => ApiEvent.grantBucketAccess b2 "CANON1") := by
  have h := (c7_bucket_policy_fanout grantX originsY "CANON1").2.2
    ["bucketA"] "bucketX" ["bucketZ"] errAccessDenied rfl rfl
    (by
      intro b2 hb2
      rw [List.mem_singleton] at hb2
      subst hb2
      rfl)
  exact ⟨rfl, rfl, h.1, h.2⟩

/-- C10 (confirmed): the bucket name passed to every bucket-policy grant
call is the Id field of a storage-bucket-backed parsed origin — every
such origin gets a grant under its Id, and every issued grant names some
such origin's Id (never its DomainName) together with the given
canonical user id. -/
theorem c10_grant_bucket_name_is_origin_id
    (grant : String → Except JsError Unit) (origins : OriginsRec) (cid : String) :
    (∀ o ∈ origins.Items, o.S3OriginConfig.isSome →
      ApiEvent.grantBucketAccess o.Id cid ∈
        (updateBucketsPolicies grant origins cid).1) ∧
    (∀ b c2, ApiEvent.grantBucketAccess b c2 ∈
        (updateBucketsPolicies grant origins cid).1 →
      c2 = cid ∧ ∃ o, o ∈ origins.Items ∧ o.S3OriginConfig.isSome ∧ b = o.Id) := by
  constructor
  · intro o ho hs3
    show ApiEvent.grantBucketAccess o.Id cid ∈
      ((origins.Items.filter fun o2 => o2.S3OriginConfig.isSome).map (fun o2 => o2.Id)).map
        (fun b => ApiEvent.grantBucketAccess b cid)
    rw [List.mem_map]
    refine ⟨o.Id, ?_, rfl⟩
    rw [List.mem_map]
    exact ⟨o, List.mem_filter.mpr ⟨ho, hs3⟩, rfl⟩
  · intro b c2 hmem
    simp only [updateBucketsPolicies, List.mem_map, List.mem_filter] at hmem
    obtain ⟨b2, ⟨o, ⟨ho, hs3⟩, hid⟩, hev⟩ := hmem
    cases hev
    exact ⟨rfl, o, ho, by simpa using hs3, hid.symm⟩

/-- C10 (witness): the grant-name theorem applied to `originsX`: the
bucket-backed origin `s3OriginX`, whose Id differs from its DomainName,
is granted under its Id, and no grant is issued under its DomainName. -/
theorem c10_grant_bucket_name_is_origin_id_witness :
    s3OriginX ∈ originsX.Items ∧
    s3OriginX.S3OriginConfig.isSome = true ∧
    s3OriginX.Id ≠ s3OriginX.DomainName ∧
    ApiEvent.grantBucketAccess s3OriginX.Id "CANON1" ∈
      (updateBucketsPolicies grantOk originsX "CANON1").1 ∧
    ApiEvent.grantBucketAccess s3OriginX.DomainName "CANON1" ∉
      (updateBucketsPolicies grantOk originsX "CANON1").1 :=
  ⟨by decide, by decide, by decide,
    (c10_grant_bucket_name_is_origin_id grantOk originsX "CANON1").1 s3OriginX
      (by decide) (by decide),
    by decide⟩

theorem updateBucketsPolicies_mem_grant (grant : String → Except JsError Unit)
    (origins : OriginsRec) (cid : String) :
    ∀ o ∈ origins.Items, o.S3OriginConfig.isSome →
      ApiEvent.grantBucketAccess o.Id cid ∈
        (updateBucketsPolicies grant origins cid).1 := by
  intro o ho hs3
  show ApiEvent.grantBucketAccess o.Id cid ∈
    ((origins.Items.filter fun o2 => o2.S3OriginConfig.isSome).map (fun o2 => o2.Id)).map
      (fun b => ApiEvent.grantBucketAccess b cid)
  rw [List.mem_map]
  refine ⟨o.Id, ?_, rfl⟩
  rw [List.mem_map]
  exact ⟨o, List.mem_filter.mpr ⟨ho, hs3⟩, rfl⟩

theorem grantStep_mem_grant (env : Env) (cid : String) (origins : OriginsRec)
    (hcid : cid ≠ "") (o : ParsedOrigin) (ho : o ∈ origins.Items)
    (hs3 : o.S3OriginConfig.isSome) :
    ApiEvent.grantBucketAccess o.Id cid ∈ (grantStep env (some cid) origins).1 := by
  have h := updateBucketsPolicies_mem_grant env.grantResult origins cid o ho hs3
  simp only [grantStep, hcid, if_neg]
  exact h

theorem oai_notin_tail (env : Env) (canonicalId : Option String)
    (origins : OriginsRec) (gres : Except JsError (List Unit))
    (built : Except JsError DistributionConfigRec)
    (mk : DistributionConfigRec → ApiEvent)
    (hmk : ∀ cfg, mk cfg ≠ ApiEvent.createOriginAccessIdentity) :
    ApiEvent.createOriginAccessIdentity ∉
      (grantStep env canonicalId origins).1 ++ postGrantEvents gres built mk := by
  intro hmem
  rcases List.mem_append.mp hmem with hg | hp
  · have := grantStep_all_grants env canonicalId origins _ hg
    simp [isGrantEvent] at this
  · obtain ⟨cfg, _, _, hev⟩ := postGrantEvents_mem _ _ _ _ hp
    exact hmk cfg hev.symm

/-- C9 (confirmed): when no input origin has `private` strictly equal to
true (bare strings, absent or false flags included), neither create nor
update ever issues a create-origin-access-identity call or a
bucket-policy grant call, whatever the environment and the origins. -/
theorem c9_no_private_no_identity_no_grants
    (env : Env) (now : Nat) (distributionId : String) (inputs : CloudFrontInputs)
    (h : ∀ o ∈ inputs.origins, originPrivateFlag o ≠ some true) :
    (∀ ev ∈ (createCloudFrontDistribution env now inputs).1,
      ev ≠ ApiEvent.createOriginAccessIdentity ∧ isGrantEvent ev = false) ∧
    (∀ ev ∈ (updateCloudFrontDistribution env distributionId inputs).1,
      ev ≠ ApiEvent.createOriginAccessIdentity ∧ isGrantEvent ev = false) := by
  have hspce : servePrivateContentEnabled inputs = false := by
    simp only [servePrivateContentEnabled, List.any_eq_false]
    intro o ho
    rw [Bool.and_eq_true]
    rintro ⟨-, hq⟩
    rw [beq_iff_eq] at hq
    exact h o ho hq
  constructor
  · intro ev hev
    simp only [createCloudFrontDistribution, hspce, Bool.false_eq_true, if_false,
      createAfterOai, grantStep, List.nil_append] at hev
    obtain ⟨cfg, _, _, hev⟩ := postGrantEvents_mem _ _ _ ev hev
    subst hev
    exact ⟨fun hc => ApiEvent.noConfusion hc, rfl⟩
  · intro ev hev
    cases hget : env.getConfigResult with
    | error e =>
        simp only [updateCloudFrontDistribution, hget] at hev
        rw [List.mem_singleton] at hev
        subst hev
        exact ⟨fun hc => ApiEvent.noConfusion hc, rfl⟩
    | ok resp =>
        simp only [updateCloudFrontDistribution, hget] at hev
        cases hdc : resp.DistributionConfig with
        | none =>
            simp only [hdc] at hev
            rw [List.mem_singleton] at hev
            subst hev
            exact ⟨fun hc => ApiEvent.noConfusion hc, rfl⟩
        | some fetched =>
            simp only [hdc, hspce, Bool.false_eq_true, if_false,
              updateAfterOai, grantStep, List.nil_append] at hev
            rcases List.mem_append.mp hev with hev | hev
            · simp only [List.append_nil, List.mem_singleton] at hev
              subst hev
              exact ⟨fun hc => ApiEvent.noConfusion hc, rfl⟩
            · obtain ⟨cfg, _, _, hev⟩ := postGrantEvents_mem _ _ _ ev hev
              subst hev
              exact ⟨fun hc => ApiEvent.noConfusion hc, rfl⟩

/-- C9 (witness): the no-private theorem applied to `baseEnv` and
`inputs0`, whose single origin is a bare string. -/
theorem c9_no_private_no_identity_no_grants_witness :
    (∀ o ∈ inputs0.origins, originPrivateFlag o ≠ some true) ∧
    (∀ ev ∈ (createCloudFrontDistribution baseEnv 0 inputs0).1,
      ev ≠ ApiEvent.createOriginAccessIdentity ∧ isGrantEvent ev = false) :=
  ⟨by decide,
    (c9_no_private_no_identity_no_grants baseEnv 0 "dist2" inputs0 (by decide)).1⟩

/-- C6 (confirmed, against the spec-modelled parser): when some input
origin has `private: true` and the provisioner returns a (truthy)
canonical user id, both create and update issue exactly one
create-origin-access-identity call, it precedes every bucket-policy
grant call, and every storage-bucket-backed parsed origin receives a
grant under the returned canonical user id. -/
theorem c6_identity_provisioned_once_before_grants
    (env : Env) (now : Nat) (distributionId : String) (inputs : CloudFrontInputs)
    (resp : GetDistributionConfigResult) (fetched : DistributionConfigRec)
    (oai : OriginAccessIdentityResult)
    (hpriv : ∃ o ∈ inputs.origins, originPrivateFlag o = some true)
    (hoai : env.oaiResult = .ok oai)
    (hcanon : oai.s3CanonicalUserId ≠ "")
    (hget : env.getConfigResult = .ok resp)
    (hdc : resp.DistributionConfig = some fetched) :
    (∃ rest, (createCloudFrontDistribution env now inputs).1 =
        ApiEvent.createOriginAccessIdentity :: rest ∧
      ApiEvent.createOriginAccessIdentity ∉ rest ∧
      ∀ o ∈ (parseInputOrigins inputs.origins
          (some oai.originAccessIdentityId)).Origins.Items,
        o.S3OriginConfig.isSome →
        ApiEvent.grantBucketAccess o.Id oai.s3CanonicalUserId ∈ rest) ∧
    (∃ pre rest, (updateCloudFrontDistribution env distributionId inputs).1 =
        pre ++ ApiEvent.createOriginAccessIdentity :: rest ∧
      (∀ ev ∈ pre, isGrantEvent ev = false) ∧
      ApiEvent.createOriginAccessIdentity ∉ pre ∧
      ApiEvent.createOriginAccessIdentity ∉ rest ∧
      ∀ o ∈ (parseInputOrigins inputs.origins
          (some oai.originAccessIdentityId)).Origins.Items,
        o.S3OriginConfig.isSome →
        ApiEvent.grantBucketAccess o.Id oai.s3CanonicalUserId ∈ rest) := by
  have hspce : servePrivateContentEnabled inputs = true := by
    obtain ⟨o, ho, hf⟩ := hpriv
    simp only [servePrivateContentEnabled, List.any_eq_true]
    refine ⟨o, ho, ?_⟩
    rw [Bool.and_eq_true]
    constructor
    · cases o with
      | str s => simp [originPrivateFlag] at hf
      | obj u p hs pv => rfl
    · rw [beq_iff_eq]
      exact hf
  constructor
  · refine ⟨(grantStep env (some oai.s3CanonicalUserId)
        (parseInputOrigins inputs.origins (some oai.originAccessIdentityId)).Origins).1 ++
      postGrantEvents
        (grantStep env (some oai.s3CanonicalUserId)
          (parseInputOrigins inputs.origins (some oai.originAccessIdentityId)).Origins).2
        (buildCreateConfig now inputs
          (parseInputOrigins inputs.origins (some oai.originAccessIdentityId)).Origins
          (parseInputOrigins inputs.origins (some oai.originAccessIdentityId)).CacheBehaviors)
        (fun cfg => ApiEvent.createDistribution { DistributionConfig := cfg }), ?_, ?_, ?_⟩
    · simp only [createCloudFrontDistribution, hspce, hoai, createAfterOai]
      rfl
    · exact oai_notin_tail env (some oai.s3CanonicalUserId) _ _ _ _
        (fun cfg hc => ApiEvent.noConfusion hc)
    · intro o ho hs3
      exact List.mem_append_left _
        (grantStep_mem_grant env oai.s3CanonicalUserId _ hcanon o ho hs3)
  · refine ⟨[ApiEvent.getDistributionConfig distributionId],
      (grantStep env (some oai.s3CanonicalUserId)
        (parseInputOrigins inputs.origins (some oai.originAccessIdentityId)).Origins).1 ++
      postGrantEvents
        (grantStep env (some oai.s3CanonicalUserId)
          (parseInputOrigins inputs.origins (some oai.originAccessIdentityId)).Origins).2
        (buildUpdateConfig fetched inputs
          (parseInputOrigins inputs.origins (some oai.originAccessIdentityId)).Origins
          (parseInputOrigins inputs.origins (some oai.originAccessIdentityId)).CacheBehaviors)
        (fun cfg => ApiEvent.updateDistribution
          { Id := distributionId, IfMatch := resp.ETag, DistributionConfig := cfg }),
      ?_, ?_, ?_, ?_, ?_⟩
    · simp only [updateCloudFrontDistribution, hget, hdc, hspce, hoai, updateAfterOai]
      rfl
    · intro ev hevp
      rw [List.mem_singleton] at hevp
      subst hevp
      rfl
    · intro hc
      rw [List.mem_singleton] at hc
      exact ApiEvent.noConfusion hc
    · exact oai_notin_tail env (some oai.s3CanonicalUserId) _ _ _ _
        (fun cfg hc => ApiEvent.noConfusion hc)
    · intro o ho hs3
      exact List.mem_append_left _
        (grantStep_mem_grant env oai.s3CanonicalUserId _ hcanon o ho hs3)

/-- C6 (witness): the provisioning-order theorem applied to `baseEnv`
and `inputsPriv`, whose single origin is private. -/
theorem c6_identity_provisioned_once_before_grants_witness :
    (∃ o ∈ inputsPriv.origins, originPrivateFlag o = some true) ∧
    oaiRec.s3CanonicalUserId ≠ "" ∧
    (∃ rest, (createCloudFrontDistribution baseEnv 0 inputsPriv).1 =
        ApiEvent.createOriginAccessIdentity :: rest ∧
      ApiEvent.createOriginAccessIdentity ∉ rest ∧
      ∀ o ∈ (parseInputOrigins inputsPriv.origins
          (some oaiRec.originAccessIdentityId)).Origins.Items,
        o.S3OriginConfig.isSome →
        ApiEvent.grantBucketAccess o.Id oaiRec.s3CanonicalUserId ∈ rest) :=
  ⟨by decide, by decide,
    (c6_identity_provisioned_once_before_grants baseEnv 0 "dist2" inputsPriv
      respC2 fetchedC2 oaiRec (by decide) rfl (by decide) rfl rfl).1⟩

end NextDeploy
